import Mathlib

/-!
Shallow embedding of the udon-frontend wallet core:
`src/components/custom/wallet/components/token-list.tsx` (TokenList) and the
transfer form file (TransferForm with its zod schema and success handler).
Amount values carried by ft4 `Amount` objects are modelled exactly: an
`Amount` is a raw integer together with a decimals count, and the decimal
string it renders is modelled by its exact rational value.
-/

namespace Udon

/-- Asset metadata carried by an ft4 `Balance` (`asset.symbol`,
`asset.decimals`, `asset.iconUrl`). -/
structure Asset where
  symbol : String
  decimals : Nat
  iconUrl : String
deriving DecidableEq

/-- An ft4 `Amount`: the raw ledger integer `value` plus the decimals used to
render it.  `Amount.toString()` renders the exact decimal number
`value / 10 ^ decimals`; we model that rendered decimal by its rational
value, see `amountToDecimal`. -/
structure Amount where
  value : Int
  decimals : Nat
deriving DecidableEq

/-- The exact rational value of the decimal string an ft4 `Amount` renders:
`value / 10 ^ decimals`. -/
def amountToDecimal (a : Amount) : ℚ :=
  (a.value : ℚ) / 10 ^ a.decimals

/-- An ft4 `Balance` as consumed by TokenList and TransferForm:
an asset together with its amount. -/
structure Balance where
  asset : Asset
  amount : Amount
deriving DecidableEq

/-- The ft4 library function `convertToRawAmount(s, decimals)`: scales an
exact decimal input by `10 ^ decimals` to raw integer units.  It is defined
(`some`) exactly when the input has no more fractional digits than
`decimals` allows, i.e. when the scaled value is an integer. -/
def convertToRawAmount (q : ℚ) (decimals : Nat) : Option Amount :=
  let scaled : ℚ := q * 10 ^ decimals
  if scaled.den = 1 then some ⟨scaled.num, decimals⟩ else none

/-- The numeric value of the amount string TokenList renders for one balance
(token-list.tsx lines 76-81):
`convertToRawAmount(tokenBalance.amount.toString(), tokenBalance.asset.decimals).value.toString()`. -/
def displayedTokenAmount (b : Balance) : Option Int :=
  (convertToRawAmount (amountToDecimal b.amount) b.asset.decimals).map Amount.value

/-- The two display-mode flags of `TokenListProps` (both default to false in
the source). -/
structure TokenListProps where
  compact : Bool := false
  fullList : Bool := false
deriving DecidableEq

/-- token-list.tsx line 25: `showCompact = compact && !fullList`. -/
def showCompact (p : TokenListProps) : Bool :=
  p.compact && !p.fullList

/-- token-list.tsx line 26:
`displayBalances = showCompact ? balances.slice(0, 3) : balances`. -/
def displayBalances (p : TokenListProps) (balances : List Balance) : List Balance :=
  if showCompact p then balances.take 3 else balances

/-- token-list.tsx line 27: `hasMore = showCompact && balances.length > 1`,
the truncation flag of the presenter. -/
def hasMore (p : TokenListProps) (balances : List Balance) : Bool :=
  showCompact p && decide (1 < balances.length)

/-- token-list.tsx line 37: the View all affordance is rendered exactly when
`showCompact && hasMore`. -/
def viewAllShown (p : TokenListProps) (balances : List Balance) : Bool :=
  showCompact p && hasMore p balances

/-- The field a validation error of the transfer schema is attached to
(react-hook-form attributes each zod issue to its field path). -/
inductive FormField where
  | recipientField
  | amountField
deriving DecidableEq

/-- The four validation issues `transferTokenSchema` can produce:
`recipient: z.string().min(1)`, `amount: z.number().min(1).max(100000)`
plus the required-number issue for a missing/NaN amount. -/
inductive FieldError where
  | recipientRequired
  | amountRequired
  | amountTooSmall
  | amountTooLarge
deriving DecidableEq

/-- The field each issue is attributed to. -/
def FieldError.field : FieldError → FormField
  | .recipientRequired => .recipientField
  | .amountRequired => .amountField
  | .amountTooSmall => .amountField
  | .amountTooLarge => .amountField

/-- The message string the schema attaches to each issue (part_000 lines
22-36). -/
def FieldError.message : FieldError → String
  | .recipientRequired => "Recipient is required"
  | .amountRequired => "Amount is required"
  | .amountTooSmall => "Amount should be greater than 0"
  | .amountTooLarge => "Max possible to transfer 100 000 tokens"

/-- The raw form input: the recipient text and the amount produced by
`valueAsNumber` (`none` models the missing / NaN amount, the form's default). -/
structure TransferFormInput where
  recipient : String
  amount : Option ℚ
deriving DecidableEq

/-- Validated values of `transferTokenSchema` (`TransferTokenValues`). -/
structure TransferTokenValues where
  recipient : String
  amount : ℚ
deriving DecidableEq

/-- `recipient: z.string().min(1, "Recipient is required")`. -/
def validateRecipient (r : String) : Option FieldError :=
  if 1 ≤ r.length then none else some .recipientRequired

/-- `amount: z.number("Amount is required").min(1, "Amount should be greater
than 0").max(100000, "Max possible to transfer 100 000 tokens")`. -/
def validateAmount (a : Option ℚ) : Option FieldError :=
  match a with
  | none => some .amountRequired
  | some q =>
      if q < 1 then some .amountTooSmall
      else if 100000 < q then some .amountTooLarge
      else none

/-- The list of issues the zod object schema collects for one input, in
field order (recipient first, then amount). -/
def fieldIssues (v : TransferFormInput) : List FieldError :=
  (validateRecipient v.recipient).toList ++ (validateAmount v.amount).toList

/-- The zod schema `transferTokenSchema` as run by `zodResolver`: parses the
input into `TransferTokenValues` when no field raises an issue, otherwise
rejects with the collected per-field issues. -/
def transferTokenSchema (v : TransferFormInput) :
    Except (List FieldError) TransferTokenValues :=
  match v.amount with
  | some q =>
      if fieldIssues v = [] then Except.ok ⟨v.recipient, q⟩
      else Except.error (fieldIssues v)
  | none => Except.error (fieldIssues v)

/-- Observable events of one submission attempt, in program order.  The
TransferSubmitter is invoked with the recipient and the raw integer amount
(the request's asset is the snapshot asset the raw amount was converted
for); the reject events are the workflow's synchronous local-validation
rejections. -/
inductive Ev where
  | rejectInsufficientBalance
  | rejectInvalidAmount
  | invokeSubmitter (recipient : String) (rawAmount : Int)
  | showSuccessModal
  | showErrorModal
  | refreshBalance
  | refreshHistory
  | back
deriving DecidableEq

/-- Recognizer for the hand-back-to-caller event `onBack()`. -/
def isBack : Ev → Bool
  | .back => true
  | _ => false

/-- Recognizer for the refresh-initiation events. -/
def isRefresh : Ev → Bool
  | .refreshBalance => true
  | .refreshHistory => true
  | _ => false

/-- Recognizer for a TransferSubmitter invocation. -/
def isInvoke : Ev → Bool
  | .invokeSubmitter _ _ => true
  | _ => false

/-- The body of the `useTransferTokens` `onSuccess` callback (part_000 lines
61-70) as its ordered event trace: show the success modal, initiate
`refreshBalance()` then `refreshHistory()` (the two `Promise.all` arguments,
initiated left to right), then after both settle call `onBack()`, returning
control to the caller. -/
def onSuccessTrace : List Ev :=
  [Ev.showSuccessModal, Ev.refreshBalance, Ev.refreshHistory, Ev.back]

/-- Modelled from the spec: the TransferWorkflow carried out by the absent
`useTransferTokens` hook (imported from
`hooks/contracts/operations/token-hooks`, which is not among the given
sources).  Validating first: it rejects with InsufficientBalance when the
requested amount exceeds `known`, the current known decimal balance of the
asset read from the BalanceStore's latest snapshot (not re-fetched); the
recipient and amount-range rules were already enforced by the form schema
before the hook is reached.  Submitting next: it converts the decimal
amount to raw integer units for the asset's `decimals` via the converter —
a conversion failure is the converter's InvalidAmount rejection — and
invokes the external TransferSubmitter exactly once with the recipient and
the raw amount.  It then invokes exactly one of the `onSuccess` /
`onError` callbacks according to the submitter outcome `res`: the
`onSuccess` body is the source's `onSuccessTrace`, the `onError` body
shows the failure modal. -/
def transferWorkflowEvents (known : ℚ) (decimals : Nat)
    (t : TransferTokenValues) (res : Bool) : List Ev :=
  if known < t.amount then [Ev.rejectInsufficientBalance]
  else
    match convertToRawAmount t.amount decimals with
    | none => [Ev.rejectInvalidAmount]
    | some raw =>
        Ev.invokeSubmitter t.recipient raw.value ::
          (if res then onSuccessTrace else [Ev.showErrorModal])

/-- The event trace of one submission attempt of the transfer form, given
the BalanceStore's latest snapshot.  The validation step (`handleSubmit`
with `zodResolver(transferTokenSchema)`) is from the source: when the
schema rejects, the submit callback is never run, so the trace is empty.
Validated values reach `transferTokens(values.recipient, values.amount)`,
the spec-modelled `transferWorkflowEvents`, whose asset is the form's
transferred asset `balances[0]` — so its known balance and decimals come
from the snapshot head.  An empty snapshot produces no submission: the
form's early-return guard (part_000 lines 74-80) makes the submission UI
unreachable then. -/
def submitFlow (snapshot : List Balance) (v : TransferFormInput)
    (res : Bool) : List Ev :=
  match transferTokenSchema v with
  | .error _ => []
  | .ok t =>
      match snapshot with
      | [] => []
      | b :: _ =>
          transferWorkflowEvents (amountToDecimal b.amount) b.asset.decimals t res

/-- What TransferForm renders (part_000 lines 74-143): the early-return
spinner, or the form whose `currentBalance` (shown as the balance hint and
used as the Max button value) and `symbol` come from `balances[0]`. -/
inductive FormView where
  | spinner
  | form (currentBalance : ℚ) (symbol : String)
deriving DecidableEq

/-- JavaScript `String.prototype.toUpperCase` on the asset symbols in use:
uppercases every character. -/
def toUpperCase (s : String) : String :=
  ⟨s.data.map Char.toUpper⟩

/-- part_000 lines 74-83: `if (isLoading || !balances?.length) return` the
spinner; otherwise `currentBalance = Number(balances[0].amount.toString())`
and `symbol = balances[0].asset?.symbol?.toUpperCase() || 'TOKEN'` (the
JavaScript `||` falls back to the default exactly when the uppercased
symbol is the empty, falsy string). -/
def transferFormView (isLoading : Bool) (balances : List Balance) : FormView :=
  match isLoading, balances with
  | true, _ => .spinner
  | false, [] => .spinner
  | false, b :: _ =>
      .form (amountToDecimal b.amount)
        (if toUpperCase b.asset.symbol = "" then "TOKEN" else toUpperCase b.asset.symbol)

/-- part_000 line 139: the submit button's `disabled` prop is
`isSubmitting`. -/
def submitButtonDisabled (isSubmitting : Bool) : Bool :=
  isSubmitting

/-- State of one transfer-form instance: react-hook-form's
`formState.isSubmitting` flag and how many submission attempts have been
started. -/
structure FormState where
  isSubmitting : Bool
  started : Nat
deriving DecidableEq

/-- A click on the form's submit control: a disabled button fires no submit
event (platform button semantics), otherwise `handleSubmit` starts a new
submission attempt and react-hook-form sets `isSubmitting` for its
duration. -/
def clickSubmit (s : FormState) : FormState :=
  if submitButtonDisabled s.isSubmitting then s
  else ⟨true, s.started + 1⟩

/-- Sample CHR balance: 500 tokens with 6 decimals, raw value 500000000
(the spec's concrete scenario). -/
def chrBalance : Balance :=
  ⟨⟨"CHR", 6, "/chr.png"⟩, ⟨500000000, 6⟩⟩

/-- A second sample balance. -/
def usdBalance : Balance :=
  ⟨⟨"USD", 2, "/usd.png"⟩, ⟨100, 2⟩⟩

/-- Third sample balance. -/
def thirdBalance : Balance :=
  ⟨⟨"ETH", 18, "/eth.png"⟩, ⟨1, 18⟩⟩

/-- Fourth sample balance. -/
def fourthBalance : Balance :=
  ⟨⟨"BTC", 8, "/btc.png"⟩, ⟨2, 8⟩⟩

lemma validateRecipient_eq_none (r : String) (hr : 1 ≤ r.length) :
    validateRecipient r = none := by
  show (if 1 ≤ r.length then none else some FieldError.recipientRequired) = none
  rw [if_pos hr]

lemma validateAmount_eq_none (q : ℚ) (h1 : 1 ≤ q) (h2 : q ≤ 100000) :
    validateAmount (some q) = none := by
  show (if q < 1 then some FieldError.amountTooSmall
        else if 100000 < q then some FieldError.amountTooLarge else none) = none
  rw [if_neg (not_lt.mpr h1), if_neg (not_lt.mpr h2)]

lemma transferTokenSchema_ok (r : String) (q : ℚ)
    (hr : validateRecipient r = none) (ha : validateAmount (some q) = none) :
    transferTokenSchema ⟨r, some q⟩ = Except.ok ⟨r, q⟩ := by
  simp [transferTokenSchema, fieldIssues, hr, ha]

lemma submitFlow_cons_ok (b : Balance) (rest : List Balance)
    (v : TransferFormInput) (tv : TransferTokenValues) (res : Bool)
    (h : transferTokenSchema v = Except.ok tv) :
    submitFlow (b :: rest) v res =
      transferWorkflowEvents (amountToDecimal b.amount) b.asset.decimals tv res := by
  unfold submitFlow
  rw [h]

lemma submitFlow_eq_of_error (snapshot : List Balance) (v : TransferFormInput)
    (l : List FieldError) (res : Bool)
    (h : transferTokenSchema v = Except.error l) :
    submitFlow snapshot v res = [] := by
  unfold submitFlow
  rw [h]

/-- Claim C1: a request whose amount exceeds the current known balance of
the asset — read from the BalanceStore's latest snapshot, here the
snapshot head's decimal amount — and which reaches the workflow's balance
check (non-empty recipient, amount within the schema's 1..100000 range,
so no earlier field rejection fires) is rejected with
InsufficientBalance during local validation: the whole trace is that
rejection and the TransferSubmitter is never invoked. -/
theorem insufficient_balance_rejected_before_submitter (b : Balance)
    (rest : List Balance) (r : String) (q : ℚ) (res : Bool)
    (hr : 1 ≤ r.length) (h1 : 1 ≤ q) (h2 : q ≤ 100000)
    (hexceed : amountToDecimal b.amount < q) :
    submitFlow (b :: rest) ⟨r, some q⟩ res = [Ev.rejectInsufficientBalance]
  ∧ List.countP isInvoke (submitFlow (b :: rest) ⟨r, some q⟩ res) = 0 := by
  have hs : transferTokenSchema ⟨r, some q⟩ = Except.ok ⟨r, q⟩ :=
    transferTokenSchema_ok r q (validateRecipient_eq_none r hr)
      (validateAmount_eq_none q h1 h2)
  have hflow : submitFlow (b :: rest) ⟨r, some q⟩ res
      = [Ev.rejectInsufficientBalance] := by
    rw [submitFlow_cons_ok b rest _ _ res hs]
    unfold transferWorkflowEvents
    rw [if_pos hexceed]
  exact ⟨hflow, by rw [hflow]; rfl⟩

/-- Witness for claim C1: balance 500 CHR (raw 500000000, 6 decimals),
request amount 600 — the spec's concrete scenario. -/
theorem insufficient_balance_rejected_before_submitter_witness :
    submitFlow [chrBalance] ⟨"alice", some 600⟩ true = [Ev.rejectInsufficientBalance]
  ∧ List.countP isInvoke (submitFlow [chrBalance] ⟨"alice", some 600⟩ true) = 0 :=
  insufficient_balance_rejected_before_submitter chrBalance [] "alice" 600 true
    (by decide) (by norm_num) (by norm_num)
    (by norm_num [chrBalance, amountToDecimal])

/-- Claim C2: on a successful submission — the request passes the schema,
the amount is within the known balance, and the raw conversion succeeds,
so the submitter is invoked and reports success — the event trace ends
with the single hand-back to the caller (`onBack()`), and both
`refreshBalance()` and `refreshHistory()` are initiated strictly before
that hand-back; the success outcome is emitted exactly once. -/
theorem success_refreshes_before_report (b : Balance) (rest : List Balance)
    (v : TransferFormInput) (tv : TransferTokenValues) (raw : Amount)
    (h : transferTokenSchema v = Except.ok tv)
    (hbal : tv.amount ≤ amountToDecimal b.amount)
    (hraw : convertToRawAmount tv.amount b.asset.decimals = some raw) :
    ∃ pre,
      submitFlow (b :: rest) v true = pre ++ [Ev.back]
    ∧ Ev.refreshBalance ∈ pre
    ∧ Ev.refreshHistory ∈ pre
    ∧ List.countP isBack (submitFlow (b :: rest) v true) = 1
    ∧ List.countP isRefresh (submitFlow (b :: rest) v true) = 2 := by
  have hs : submitFlow (b :: rest) v true
      = Ev.invokeSubmitter tv.recipient raw.value :: onSuccessTrace := by
    rw [submitFlow_cons_ok b rest _ _ true h]
    unfold transferWorkflowEvents
    rw [if_neg (not_lt.mpr hbal), hraw]
    rfl
  refine ⟨[Ev.invokeSubmitter tv.recipient raw.value, Ev.showSuccessModal,
    Ev.refreshBalance, Ev.refreshHistory], ?_, by simp, by simp, ?_, ?_⟩
  · rw [hs]; rfl
  · rw [hs]; rfl
  · rw [hs]; rfl

/-- Witness for claim C2 at the valid request ("alice", 100) against the
500-CHR snapshot: raw amount submitted is 100000000. -/
theorem success_refreshes_before_report_witness :
    ∃ pre,
      submitFlow [chrBalance] ⟨"alice", some 100⟩ true = pre ++ [Ev.back]
    ∧ Ev.refreshBalance ∈ pre
    ∧ Ev.refreshHistory ∈ pre
    ∧ List.countP isBack (submitFlow [chrBalance] ⟨"alice", some 100⟩ true) = 1
    ∧ List.countP isRefresh (submitFlow [chrBalance] ⟨"alice", some 100⟩ true) = 2 :=
  success_refreshes_before_report chrBalance [] ⟨"alice", some 100⟩
    ⟨"alice", 100⟩ ⟨100000000, 6⟩ rfl
    (by norm_num [chrBalance, amountToDecimal])
    (by norm_num [chrBalance, convertToRawAmount])

/-- Claim C3, code bug: the schema's amount rule is `.min(1)`, so the
amount 1/2 — strictly positive and below the 100000 maximum, hence valid
per the claim and per the rule's own message "Amount should be greater
than 0" — is rejected; the boundary the code enforces is `amount < 1`,
not `amount ≤ 0`.  The remaining boundaries behave as claimed. -/
theorem amount_min_boundary_bug :
    validateAmount (some (1 / 2)) = some FieldError.amountTooSmall
  ∧ FieldError.message FieldError.amountTooSmall = "Amount should be greater than 0"
  ∧ (0 : ℚ) < 1 / 2
  ∧ (1 / 2 : ℚ) ≤ 100000
  ∧ validateAmount (some 0) = some FieldError.amountTooSmall
  ∧ validateAmount (some 100001) = some FieldError.amountTooLarge
  ∧ validateAmount (some 1) = none
  ∧ validateAmount (some 100000) = none := by
  refine ⟨by norm_num [validateAmount], rfl, by norm_num, by norm_num, rfl, rfl,
    rfl, rfl⟩

/-- Claim C4, code bug: TokenList pipes the decimal amount string through
`convertToRawAmount`, so the number it displays is the raw integer
`rawAmount` itself (decimal times 10 ^ decimals), not
`rawAmount / 10 ^ decimals` as claimed: for the 500-CHR balance
(raw 500000000, 6 decimals) the rendered number is 500000000, while the
claimed display value is 500. -/
theorem token_list_displays_raw_units :
    displayedTokenAmount chrBalance = some chrBalance.amount.value
  ∧ chrBalance.amount.value = 500000000
  ∧ amountToDecimal chrBalance.amount = 500
  ∧ ((500000000 : ℚ) ≠ 500) := by
  refine ⟨?_, rfl, by norm_num [chrBalance, amountToDecimal], by norm_num⟩
  norm_num [displayedTokenAmount, chrBalance, convertToRawAmount, amountToDecimal]

/-- Claim C5, counterexample: for the two-element list in compact mode the
code leaves both entries visible but sets the truncation flag to true
(`balances.length > 1`), not false as the claim states. -/
theorem compact_pair_truncated_counterexample :
    displayBalances ⟨true, false⟩ [chrBalance, usdBalance] = [chrBalance, usdBalance]
  ∧ hasMore ⟨true, false⟩ [chrBalance, usdBalance] = true :=
  ⟨rfl, rfl⟩

/-- Claim C5, amended: for every two-element balance list presented in
compact mode, visible is the whole list and truncated is true. -/
theorem compact_pair_visible_truncated (x y : Balance) :
    displayBalances ⟨true, false⟩ [x, y] = [x, y]
  ∧ hasMore ⟨true, false⟩ [x, y] = true :=
  ⟨rfl, rfl⟩

/-- Claim C6: in compact mode the visible list is a prefix of the input of
length min 3 (length), i.e. the first min(3, length) entries in order, and
the truncation flag is true exactly when the list has more than one
entry. -/
theorem compact_mode_take_three_and_flag (bs : List Balance) :
    displayBalances ⟨true, false⟩ bs <+: bs
  ∧ (displayBalances ⟨true, false⟩ bs).length = min 3 bs.length
  ∧ (hasMore ⟨true, false⟩ bs = true ↔ 1 < bs.length) := by
  refine ⟨⟨bs.drop 3, ?_⟩, ?_, ?_⟩
  · show displayBalances ⟨true, false⟩ bs ++ bs.drop 3 = bs
    simp [displayBalances, showCompact]
  · simp [displayBalances, showCompact]
  · simp [hasMore, showCompact]

/-- Claim C7: an empty recipient raises the recipient-attributed issue
"Recipient is required", the schema rejects, and the submit callback is
never run, so the TransferSubmitter is not invoked (empty trace). -/
theorem empty_recipient_rejected_before_submit (snapshot : List Balance)
    (a : Option ℚ) (res : Bool) :
    validateRecipient "" = some FieldError.recipientRequired
  ∧ FieldError.field FieldError.recipientRequired = FormField.recipientField
  ∧ (∃ l, transferTokenSchema ⟨"", a⟩ = Except.error l
      ∧ FieldError.recipientRequired ∈ l)
  ∧ submitFlow snapshot ⟨"", a⟩ res = [] := by
  have key : ∃ l, transferTokenSchema ⟨"", a⟩ = Except.error l
      ∧ FieldError.recipientRequired ∈ l := by
    cases a with
    | none =>
        exact ⟨fieldIssues ⟨"", none⟩, rfl, by simp [fieldIssues, validateRecipient]⟩
    | some q =>
        refine ⟨fieldIssues ⟨"", some q⟩, ?_, by simp [fieldIssues, validateRecipient]⟩
        have hne : fieldIssues ⟨"", some q⟩ ≠ [] := by
          simp [fieldIssues, validateRecipient]
        simp [transferTokenSchema, hne]
  obtain ⟨l, hl, hm⟩ := key
  exact ⟨rfl, rfl, ⟨l, hl, hm⟩, submitFlow_eq_of_error snapshot _ l res hl⟩

/-- Claim C8: when both compact and fullList are set, the full view wins:
the whole list is visible, the truncation flag is false, and the View all
affordance is not rendered. -/
theorem full_list_overrides_compact (bs : List Balance) :
    displayBalances ⟨true, true⟩ bs = bs
  ∧ hasMore ⟨true, true⟩ bs = false
  ∧ viewAllShown ⟨true, true⟩ bs = false :=
  ⟨rfl, rfl, rfl⟩

/-- Claim C9: whenever TransferForm renders the form (rather than the
early-return spinner), the store is not loading and the balance list is
non-empty, and the current balance shown — also the Max button value —
is the decimal amount of `balances[0]`; so the index-0 access and the
submission UI are unreachable while loading or with no balances. -/
theorem form_guard_before_head_access (isLoading : Bool) (bs : List Balance)
    (cb : ℚ) (sym : String)
    (h : transferFormView isLoading bs = FormView.form cb sym) :
    isLoading = false
  ∧ bs ≠ []
  ∧ ∃ b rest, bs = b :: rest ∧ cb = amountToDecimal b.amount := by
  cases isLoading with
  | true => simp [transferFormView] at h
  | false =>
      cases bs with
      | nil => simp [transferFormView] at h
      | cons b rest =>
          simp only [transferFormView, FormView.form.injEq] at h
          exact ⟨rfl, by simp, b, rest, rfl, h.1.symm⟩

/-- Witness for claim C9 at the loaded single-balance state. -/
theorem form_guard_before_head_access_witness :
    transferFormView false [chrBalance] = FormView.form 500 "CHR"
  ∧ (false = false
      ∧ [chrBalance] ≠ []
      ∧ ∃ b rest, [chrBalance] = b :: rest ∧ (500 : ℚ) = amountToDecimal b.amount) := by
  have h : transferFormView false [chrBalance] = FormView.form 500 "CHR" := by
    have h0 : transferFormView false [chrBalance]
        = FormView.form (amountToDecimal chrBalance.amount) "CHR" := rfl
    rw [h0]
    norm_num [chrBalance, amountToDecimal]
  exact ⟨h, form_guard_before_head_access false [chrBalance] 500 "CHR" h⟩

/-- Claim C10: while a submission attempt is in flight the submit control
is disabled, and a click on the disabled control starts no new submission:
the form state is unchanged and the started-attempts count does not
grow. -/
theorem no_double_submit_while_in_flight (s : FormState)
    (h : s.isSubmitting = true) :
    submitButtonDisabled s.isSubmitting = true
  ∧ clickSubmit s = s
  ∧ (clickSubmit s).started = s.started := by
  have hd : submitButtonDisabled s.isSubmitting = true := h
  have hc : clickSubmit s = s := by
    unfold clickSubmit
    rw [hd]
    simp
  exact ⟨hd, hc, by rw [hc]⟩

/-- Witness for claim C10 at an in-flight state. -/
theorem no_double_submit_while_in_flight_witness :
    submitButtonDisabled (FormState.mk true 5).isSubmitting = true
  ∧ clickSubmit ⟨true, 5⟩ = ⟨true, 5⟩
  ∧ (clickSubmit ⟨true, 5⟩).started = (FormState.mk true 5).started :=
  no_double_submit_while_in_flight ⟨true, 5⟩ rfl

end Udon
